import Mathlib

/-!
Shallow embedding of
src/assets/src/edit-story/app/checklist/utils/isLinkBelowLimit.js
(web-stories-wp).

JavaScript numbers are modelled by the real numbers; a second model (suffix
N) uses Option real, with none standing for NaN, to capture IEEE NaN
propagation for the error-handling claims.  The functions are translated
line by line from the source file; the page constants come from a module
that is not part of src/, so they are modelled from the spec as an explicit
PageGeometry parameter.
-/

namespace LinkZone

/-- Modelled from the spec: the constants pageWidth, pageHeight and
fullbleedRatio are imported by the source file from ../../../constants,
which is not among the source files; per spec section 6 the evaluator is
parameterized by them, so they are passed explicitly. -/
structure PageGeometry where
  pageWidth : ℝ
  pageHeight : ℝ
  fullbleedRatio : ℝ

/-- const FULLBLEED_HEIGHT = PAGE_WIDTH / FULLBLEED_RATIO (line 22). -/
noncomputable def FULLBLEED_HEIGHT (g : PageGeometry) : ℝ :=
  g.pageWidth / g.fullbleedRatio

/-- const DANGER_ZONE_HEIGHT = (FULLBLEED_HEIGHT - PAGE_HEIGHT) / 2 (line 23). -/
noncomputable def DANGER_ZONE_HEIGHT (g : PageGeometry) : ℝ :=
  (FULLBLEED_HEIGHT g - g.pageHeight) / 2

/-- const limit = FULLBLEED_HEIGHT * 0.8 (line 55 of the source). -/
noncomputable def limit (g : PageGeometry) : ℝ :=
  FULLBLEED_HEIGHT g * 0.8

/-- Modelled from the spec: the concrete configuration of the scenario in
spec section 8: pageWidth = 412, pageHeight = 732, fullbleedRatio = 9/16. -/
noncomputable def defaultGeometry : PageGeometry :=
  { pageWidth := 412, pageHeight := 732, fullbleedRatio := 9 / 16 }

/-- The link annotation carried by an element; url may be absent. -/
structure LinkInfo where
  url : Option String

/-- The element record destructured by the source:
y, width, height, rotationAngle and an optional link. -/
structure PositionedElement where
  y : ℝ
  width : ℝ
  height : ℝ
  rotationAngle : ℝ
  link : Option LinkInfo

/-- The optional chain element.link?.url?.length of line 52: undefined
(none) as soon as link or url is missing, else the length of url. -/
def linkUrlLength (e : PositionedElement) : Option Nat :=
  (e.link.bind fun l => l.url).map String.length

/-- JavaScript logical not applied to the value of the optional chain:
not of undefined is true, not of 0 is true, not of a positive length is
false. -/
def jsNotLength : Option Nat → Bool
  | none => true
  | some n => n == 0

/-- JavaScript comparison of a boolean with 0: the boolean is coerced to
the number 1 or 0, so (b > 0) holds exactly when b is true.  Line 52 of
the source reads !element.link?.url?.length > 0, which by precedence is
(!chain) > 0. -/
def jsBoolGtZero (b : Bool) : Bool :=
  decide ((if b then (1 : ℕ) else 0) > 0)

/-- const radians = (rotationAngle * Math.PI) / 180 (line 26). -/
noncomputable def radians (e : PositionedElement) : ℝ :=
  e.rotationAngle * Real.pi / 180

/-- getYCoordinatesByAngle (lines 25 to 49): the four corner Y values,
upper left, upper right, bottom right, bottom left, in source order. -/
noncomputable def getYCoordinatesByAngle (e : PositionedElement) : List ℝ :=
  [ e.y + e.height + e.width / (-2) * Real.sin (radians e)
      + e.height / (-2) * Real.cos (radians e),
    e.y + e.height + e.width / 2 * Real.sin (radians e)
      + e.height / (-2) * Real.cos (radians e),
    e.y + e.height + e.width / 2 * Real.sin (radians e)
      + e.height / 2 * Real.cos (radians e),
    e.y + e.height + e.width / (-2) * Real.sin (radians e)
      + e.height / 2 * Real.cos (radians e) ]

/-- The Boolean() coercion applied to the result of Array.prototype.find:
undefined gives false, the number 0 gives false, any other number gives
true. -/
noncomputable def jsBooleanOfFind (r : Option ℝ) : Bool :=
  match r with
  | none => false
  | some v => decide (v ≠ 0)

/-- The danger-zone predicate of line 57: y + DANGER_ZONE_HEIGHT > limit. -/
noncomputable def exceedsLimit (g : PageGeometry) (yv : ℝ) : Bool :=
  decide (yv + DANGER_ZONE_HEIGHT g > limit g)

/-- isLinkBelowLimit (lines 51 to 58), translated line by line:
the guard of line 52, then limit, then points.find, then Boolean().
Array.prototype.find is List.find?: the first element satisfying the
predicate, or undefined (none). -/
noncomputable def isLinkBelowLimit (g : PageGeometry) (e : PositionedElement) : Bool :=
  if jsBoolGtZero (jsNotLength (linkUrlLength e)) then false
  else
    jsBooleanOfFind ((getYCoordinatesByAngle e).find? (exceedsLimit g))

/-- The spec formula of section 4.1: cornerY = y + height + dx * sin(radians)
+ dy * cos(radians), for a corner offset (dx, dy). -/
noncomputable def cornerY (e : PositionedElement) (dx dy : ℝ) : ℝ :=
  e.y + e.height + dx * Real.sin (radians e) + dy * Real.cos (radians e)

/-- The spec's direct computation for a non-rotated element: the same guard
and find-then-Boolean evaluation, over the two untransformed values
y + height/2 and y + 3/2 * height, with no rotation transform. -/
noncomputable def isLinkBelowLimitNoRotation (g : PageGeometry) (e : PositionedElement) : Bool :=
  if jsBoolGtZero (jsNotLength (linkUrlLength e)) then false
  else
    jsBooleanOfFind
      (([e.y + e.height / 2, e.y + 3 / 2 * e.height]).find? (exceedsLimit g))

/-- The element carries a link whose url is present and non-empty. -/
def hasNonEmptyUrl (e : PositionedElement) : Prop :=
  ∃ n, linkUrlLength e = some n ∧ 0 < n

/- ### Helper lemmas about the guard and the find-Boolean combination -/

theorem jsBoolGtZero_eq (b : Bool) : jsBoolGtZero b = b := by
  cases b <;> rfl

theorem guard_eq_false_iff (v : Option Nat) :
    jsBoolGtZero (jsNotLength v) = false ↔ ∃ n, v = some n ∧ 0 < n := by
  rw [jsBoolGtZero_eq]
  cases v with
  | none => simp [jsNotLength]
  | some n =>
    cases n with
    | zero => simp [jsNotLength]
    | succ m => simp [jsNotLength]

theorem guard_eq_true_iff (v : Option Nat) :
    jsBoolGtZero (jsNotLength v) = true ↔ v = none ∨ v = some 0 := by
  rw [jsBoolGtZero_eq]
  cases v with
  | none => simp [jsNotLength]
  | some n =>
    cases n with
    | zero => simp [jsNotLength]
    | succ m => simp [jsNotLength]

theorem isLinkBelowLimit_of_link (g : PageGeometry) (e : PositionedElement)
    (h : hasNonEmptyUrl e) :
    isLinkBelowLimit g e =
      jsBooleanOfFind ((getYCoordinatesByAngle e).find? (exceedsLimit g)) := by
  unfold isLinkBelowLimit
  rw [if_neg]
  intro hguard
  rcases (guard_eq_true_iff (linkUrlLength e)).mp hguard with h0 | h0 <;>
    rcases h with ⟨n, hn, hpos⟩ <;> rw [hn] at h0 <;> simp_all

theorem jsBooleanOfFind_eq_true_iff (p : ℝ → Bool) (l : List ℝ)
    (hz : ∀ a ∈ l, p a = true → a ≠ 0) :
    jsBooleanOfFind (l.find? p) = true ↔ ∃ a ∈ l, p a = true := by
  constructor
  · intro h
    cases hf : l.find? p with
    | none => rw [hf] at h; simp [jsBooleanOfFind] at h
    | some a =>
      exact ⟨a, List.mem_of_find?_eq_some hf, List.find?_some hf⟩
  · intro h
    have hs : (l.find? p).isSome := List.find?_isSome.mpr (by
      rcases h with ⟨a, ha, hp⟩; exact ⟨a, ha, hp⟩)
    cases hf : l.find? p with
    | none => rw [hf] at hs; simp at hs
    | some a =>
      have hp := List.find?_some hf
      have ha := List.mem_of_find?_eq_some hf
      simp [jsBooleanOfFind, hz a ha hp]

/- ### Concrete inputs used by the witnesses and scenarios -/

/-- The first element of the spec scenario: y = 600, width = 100,
height = 100, rotationAngle = 0, with a non-empty link url. -/
noncomputable def elemScenarioA : PositionedElement :=
  { y := 600, width := 100, height := 100, rotationAngle := 0,
    link := some { url := some "https://example.com" } }

/-- The same geometry with link undefined. -/
noncomputable def elemScenarioB : PositionedElement :=
  { y := 600, width := 100, height := 100, rotationAngle := 0, link := none }

/-- An element near the page top: y = 0, height = 20, with a link. -/
noncomputable def elemScenarioC : PositionedElement :=
  { y := 0, width := 100, height := 20, rotationAngle := 0,
    link := some { url := some "https://example.com" } }

/- ### Claim theorems -/

/-- Claim C2: getYCoordinatesByAngle returns exactly four values, one per
corner offset (dx, dy) in -w/2, w/2 crossed with -h/2, h/2, each equal to
y + height + dx * sin(rotationAngle * pi / 180) + dy * cos(...), in the
fixed order upper-left, upper-right, bottom-right, bottom-left. -/
theorem getYCoordinatesByAngle_spec (e : PositionedElement) :
    getYCoordinatesByAngle e =
      [ cornerY e (-(e.width / 2)) (-(e.height / 2)),
        cornerY e (e.width / 2) (-(e.height / 2)),
        cornerY e (e.width / 2) (e.height / 2),
        cornerY e (-(e.width / 2)) (e.height / 2) ] ∧
    (getYCoordinatesByAngle e).length = 4 := by
  refine ⟨?_, rfl⟩
  unfold getYCoordinatesByAngle cornerY
  simp only [List.cons.injEq, and_true]
  refine ⟨by ring_nf, by ring_nf, by ring_nf, by ring_nf⟩

/-- Claim C3: if the link is absent, or its url is absent or empty, then
isLinkBelowLimit returns false, for every geometry and every value of the
numeric fields; the guard checks link, then url, then its length. -/
theorem isLinkBelowLimit_no_link (g : PageGeometry) (e : PositionedElement)
    (h : e.link = none ∨ ∃ l, e.link = some l ∧
          (l.url = none ∨ ∃ s, l.url = some s ∧ s.length = 0)) :
    isLinkBelowLimit g e = false := by
  unfold isLinkBelowLimit
  rw [if_pos]
  apply (guard_eq_true_iff _).mpr
  rcases h with h | ⟨l, hl, h⟩
  · left; simp [linkUrlLength, h]
  · rcases h with h | ⟨s, hs, hlen⟩
    · left; simp [linkUrlLength, hl, h]
    · right; simp [linkUrlLength, hl, hs, hlen]

/-- Witness for C3 at a concrete element with no link. -/
theorem isLinkBelowLimit_no_link_witness :
    (elemScenarioB.link = none ∨ ∃ l, elemScenarioB.link = some l ∧
      (l.url = none ∨ ∃ s, l.url = some s ∧ s.length = 0)) ∧
    isLinkBelowLimit defaultGeometry elemScenarioB = false :=
  ⟨Or.inl rfl, isLinkBelowLimit_no_link defaultGeometry elemScenarioB (Or.inl rfl)⟩

/-- Claim C5: adding 360 degrees to the rotation angle never changes the
result of isLinkBelowLimit, for every geometry and every element. -/
theorem isLinkBelowLimit_rotation_periodic (g : PageGeometry) (e : PositionedElement) :
    isLinkBelowLimit g { e with rotationAngle := e.rotationAngle + 360 } =
      isLinkBelowLimit g e := by
  have hrad : radians { e with rotationAngle := e.rotationAngle + 360 } =
      radians e + 2 * Real.pi := by
    unfold radians; ring
  have hcorners : getYCoordinatesByAngle { e with rotationAngle := e.rotationAngle + 360 } =
      getYCoordinatesByAngle e := by
    unfold getYCoordinatesByAngle
    rw [hrad]
    simp [Real.sin_add_two_pi, Real.cos_add_two_pi]
  unfold isLinkBelowLimit
  rw [hcorners]
  rfl

/-- Claim C7: isLinkBelowLimit is total: on every input, every geometry
included, it returns a boolean, true or false; there is no error branch in
the definition, which is a total function into Bool. -/
theorem isLinkBelowLimit_total (g : PageGeometry) (e : PositionedElement) :
    isLinkBelowLimit g e = true ∨ isLinkBelowLimit g e = false := by
  cases h : isLinkBelowLimit g e
  · exact Or.inr rfl
  · exact Or.inl rfl

/- ### Exact values of the derived constants at the default geometry -/

theorem defaultGeometry_FULLBLEED_HEIGHT :
    FULLBLEED_HEIGHT defaultGeometry = 6592 / 9 := by
  unfold FULLBLEED_HEIGHT defaultGeometry
  norm_num

theorem defaultGeometry_DANGER_ZONE_HEIGHT :
    DANGER_ZONE_HEIGHT defaultGeometry = 2 / 9 := by
  unfold DANGER_ZONE_HEIGHT
  rw [defaultGeometry_FULLBLEED_HEIGHT]
  unfold defaultGeometry
  norm_num

theorem defaultGeometry_limit : limit defaultGeometry = 26368 / 45 := by
  unfold limit
  rw [defaultGeometry_FULLBLEED_HEIGHT]
  norm_num

/-- Claim C1: with the default geometry, for an element whose link is
present with a non-empty url, isLinkBelowLimit is true exactly when one of
the four corner Y values, after adding DANGER_ZONE_HEIGHT, exceeds limit.
(At this geometry a qualifying corner value is necessarily above
limit - DANGER_ZONE_HEIGHT > 0, so the Boolean coercion of the found value
never demotes a qualifying corner.) -/
theorem isLinkBelowLimit_iff_corner (e : PositionedElement)
    (h : hasNonEmptyUrl e) :
    isLinkBelowLimit defaultGeometry e = true ↔
      ∃ yv ∈ getYCoordinatesByAngle e,
        yv + DANGER_ZONE_HEIGHT defaultGeometry > limit defaultGeometry := by
  rw [isLinkBelowLimit_of_link defaultGeometry e h]
  rw [jsBooleanOfFind_eq_true_iff]
  · constructor
    · rintro ⟨a, ha, hp⟩
      exact ⟨a, ha, of_decide_eq_true hp⟩
    · rintro ⟨a, ha, hp⟩
      exact ⟨a, ha, decide_eq_true hp⟩
  · intro a _ hp
    have hgt : a + DANGER_ZONE_HEIGHT defaultGeometry > limit defaultGeometry :=
      of_decide_eq_true hp
    rw [defaultGeometry_DANGER_ZONE_HEIGHT, defaultGeometry_limit] at hgt
    intro h0
    rw [h0] at hgt
    norm_num at hgt

/-- Witness for C1: the scenario element with a link, low on the page. -/
theorem isLinkBelowLimit_iff_corner_witness :
    hasNonEmptyUrl elemScenarioA ∧
    (isLinkBelowLimit defaultGeometry elemScenarioA = true ↔
      ∃ yv ∈ getYCoordinatesByAngle elemScenarioA,
        yv + DANGER_ZONE_HEIGHT defaultGeometry > limit defaultGeometry) :=
  ⟨⟨19, rfl, by norm_num⟩, isLinkBelowLimit_iff_corner elemScenarioA ⟨19, rfl, by norm_num⟩⟩

/-- Claim C4: with rotationAngle = 0 and positive height, the corner list
collapses to the two distinct values y + height/2 (both top corners) and
y + 3/2 * height (both bottom corners), and isLinkBelowLimit agrees with
the direct computation over those two values without a rotation transform. -/
theorem isLinkBelowLimit_no_rotation (g : PageGeometry) (e : PositionedElement)
    (hrot : e.rotationAngle = 0) (hh : 0 < e.height) :
    getYCoordinatesByAngle e =
      [ e.y + e.height / 2, e.y + e.height / 2,
        e.y + 3 / 2 * e.height, e.y + 3 / 2 * e.height ] ∧
    e.y + e.height / 2 ≠ e.y + 3 / 2 * e.height ∧
    isLinkBelowLimit g e = isLinkBelowLimitNoRotation g e := by
  have hrad : radians e = 0 := by
    unfold radians; rw [hrot]; ring
  have hc : getYCoordinatesByAngle e =
      [ e.y + e.height / 2, e.y + e.height / 2,
        e.y + 3 / 2 * e.height, e.y + 3 / 2 * e.height ] := by
    unfold getYCoordinatesByAngle
    rw [hrad]
    simp only [Real.sin_zero, Real.cos_zero, List.cons.injEq, and_true]
    refine ⟨by ring, by ring, by ring, by ring⟩
  refine ⟨hc, ?_, ?_⟩
  · intro hcontra
    have : e.height = 0 := by linarith
    linarith
  · unfold isLinkBelowLimit isLinkBelowLimitNoRotation
    rw [hc]
    cases hguard : jsBoolGtZero (jsNotLength (linkUrlLength e))
    · simp only [Bool.false_eq_true, if_false]
      cases hpt : exceedsLimit g (e.y + e.height / 2)
      · cases hpb : exceedsLimit g (e.y + 3 / 2 * e.height)
        · simp [List.find?, hpt, hpb]
        · simp [List.find?, hpt, hpb]
      · simp [List.find?, hpt]
    · simp

/-- Witness for C4: a concrete unrotated element of height 100. -/
theorem isLinkBelowLimit_no_rotation_witness :
    (elemScenarioA.rotationAngle = 0 ∧ 0 < elemScenarioA.height) ∧
    (getYCoordinatesByAngle elemScenarioA =
      [ elemScenarioA.y + elemScenarioA.height / 2,
        elemScenarioA.y + elemScenarioA.height / 2,
        elemScenarioA.y + 3 / 2 * elemScenarioA.height,
        elemScenarioA.y + 3 / 2 * elemScenarioA.height ] ∧
    elemScenarioA.y + elemScenarioA.height / 2 ≠
      elemScenarioA.y + 3 / 2 * elemScenarioA.height ∧
    isLinkBelowLimit defaultGeometry elemScenarioA =
      isLinkBelowLimitNoRotation defaultGeometry elemScenarioA) :=
  ⟨⟨rfl, by norm_num [elemScenarioA]⟩,
    isLinkBelowLimit_no_rotation defaultGeometry elemScenarioA rfl
      (by norm_num [elemScenarioA])⟩

/-- A configuration in which the danger zone is taller than the limit, so
that the corner value 0 itself qualifies: fullbleedHeight = 16,
limit = 12.8, dangerZoneHeight = 13. -/
noncomputable def quirkGeometry : PageGeometry :=
  { pageWidth := 16, pageHeight := -10, fullbleedRatio := 1 }

/-- A zero-sized element at the origin carrying a link. -/
noncomputable def elemAtZero : PositionedElement :=
  { y := 0, width := 0, height := 0, rotationAngle := 0,
    link := some { url := some "a" } }

/-- Claim C9: with a non-empty link url, isLinkBelowLimit is the Boolean
coercion of the first corner Y value satisfying the danger-zone predicate,
and whenever that first qualifying value is exactly 0 the function returns
false even though a corner exceeds the limit. -/
theorem isLinkBelowLimit_first_match (g : PageGeometry) (e : PositionedElement)
    (h : hasNonEmptyUrl e) :
    isLinkBelowLimit g e =
      jsBooleanOfFind ((getYCoordinatesByAngle e).find? (exceedsLimit g)) ∧
    ((getYCoordinatesByAngle e).find? (exceedsLimit g) = some 0 →
      isLinkBelowLimit g e = false ∧
      ∃ yv ∈ getYCoordinatesByAngle e,
        yv + DANGER_ZONE_HEIGHT g > limit g) := by
  refine ⟨isLinkBelowLimit_of_link g e h, fun h0 => ⟨?_, ?_⟩⟩
  · rw [isLinkBelowLimit_of_link g e h, h0]
    simp [jsBooleanOfFind]
  · have hp := List.find?_some h0
    simp only [exceedsLimit, decide_eq_true_eq] at hp
    exact ⟨0, List.mem_of_find?_eq_some h0, hp⟩

/-- Witness for C9, at a geometry where the corner value 0 qualifies: the
find call returns some 0 and the function returns false. -/
theorem isLinkBelowLimit_first_match_witness :
    hasNonEmptyUrl elemAtZero ∧
    (getYCoordinatesByAngle elemAtZero).find? (exceedsLimit quirkGeometry) = some 0 ∧
    (isLinkBelowLimit quirkGeometry elemAtZero =
      jsBooleanOfFind
        ((getYCoordinatesByAngle elemAtZero).find? (exceedsLimit quirkGeometry)) ∧
    ((getYCoordinatesByAngle elemAtZero).find? (exceedsLimit quirkGeometry) = some 0 →
      isLinkBelowLimit quirkGeometry elemAtZero = false ∧
      ∃ yv ∈ getYCoordinatesByAngle elemAtZero,
        yv + DANGER_ZONE_HEIGHT quirkGeometry > limit quirkGeometry)) := by
  have hlink : hasNonEmptyUrl elemAtZero := ⟨1, rfl, by norm_num⟩
  have hc : getYCoordinatesByAngle elemAtZero = [0, 0, 0, 0] := by
    simp [getYCoordinatesByAngle, elemAtZero]
  have hp0 : exceedsLimit quirkGeometry 0 = true := by
    simp only [exceedsLimit, DANGER_ZONE_HEIGHT, FULLBLEED_HEIGHT, limit,
      quirkGeometry, decide_eq_true_eq]
    norm_num
  have hfind : (getYCoordinatesByAngle elemAtZero).find? (exceedsLimit quirkGeometry)
      = some 0 := by
    rw [hc]
    rw [List.find?_cons_of_pos _ hp0]
  exact ⟨hlink, hfind, isLinkBelowLimit_first_match quirkGeometry elemAtZero hlink⟩

/-- Claim C10: for a zero-width, zero-height element all four corner Y
values equal y at every rotation angle, and isLinkBelowLimit is true
exactly when the link url is non-empty, y + dangerZoneHeight exceeds the
limit, and y is truthy (non-zero). -/
theorem isLinkBelowLimit_zero_size (g : PageGeometry) (e : PositionedElement)
    (hw : e.width = 0) (hh : e.height = 0) :
    getYCoordinatesByAngle e = [e.y, e.y, e.y, e.y] ∧
    (isLinkBelowLimit g e = true ↔
      hasNonEmptyUrl e ∧ e.y + DANGER_ZONE_HEIGHT g > limit g ∧ e.y ≠ 0) := by
  have hc : getYCoordinatesByAngle e = [e.y, e.y, e.y, e.y] := by
    unfold getYCoordinatesByAngle
    rw [hw, hh]
    norm_num
  refine ⟨hc, ?_⟩
  unfold isLinkBelowLimit
  rw [hc]
  cases hguard : jsBoolGtZero (jsNotLength (linkUrlLength e)) with
  | false =>
    have hlink : hasNonEmptyUrl e := (guard_eq_false_iff (linkUrlLength e)).mp hguard
    simp only [Bool.false_eq_true, if_false]
    cases hpy : exceedsLimit g e.y with
    | false =>
      have hfind : List.find? (exceedsLimit g) [e.y, e.y, e.y, e.y] = none := by
        simp [List.find?, hpy]
      rw [hfind]
      have hngt : ¬ e.y + DANGER_ZONE_HEIGHT g > limit g := by
        simpa [exceedsLimit] using hpy
      simp [jsBooleanOfFind, hngt]
    | true =>
      rw [List.find?_cons_of_pos _ hpy]
      have hgt : e.y + DANGER_ZONE_HEIGHT g > limit g := by
        simpa [exceedsLimit] using hpy
      simp [jsBooleanOfFind, hlink, hgt]
  | true =>
    have hnol : ¬ hasNonEmptyUrl e := by
      intro hx
      have hf := (guard_eq_false_iff (linkUrlLength e)).mpr hx
      rw [hf] at hguard
      cases hguard
    simp [hnol]

/-- Witness for C10 at a concrete zero-sized element with a link. -/
theorem isLinkBelowLimit_zero_size_witness :
    ((⟨700, 0, 0, 45, some ⟨some "x"⟩⟩ : PositionedElement).width = 0 ∧
     (⟨700, 0, 0, 45, some ⟨some "x"⟩⟩ : PositionedElement).height = 0) ∧
    (getYCoordinatesByAngle ⟨700, 0, 0, 45, some ⟨some "x"⟩⟩ = [700, 700, 700, 700] ∧
    (isLinkBelowLimit defaultGeometry ⟨700, 0, 0, 45, some ⟨some "x"⟩⟩ = true ↔
      hasNonEmptyUrl ⟨700, 0, 0, 45, some ⟨some "x"⟩⟩ ∧
      (700 : ℝ) + DANGER_ZONE_HEIGHT defaultGeometry > limit defaultGeometry ∧
      (700 : ℝ) ≠ 0)) :=
  ⟨⟨rfl, rfl⟩,
    isLinkBelowLimit_zero_size defaultGeometry ⟨700, 0, 0, 45, some ⟨some "x"⟩⟩ rfl rfl⟩

/-- Claim C6: at the spec's concrete configuration (pageWidth 412,
pageHeight 732, fullbleedRatio 9/16), the element at y = 600 with a
100 by 100 box and a link is flagged, the same element without a link is
not, and an element at the page top (y = 0, height 20) with a link is not. -/
theorem concrete_scenarios :
    isLinkBelowLimit defaultGeometry elemScenarioA = true ∧
    isLinkBelowLimit defaultGeometry elemScenarioB = false ∧
    isLinkBelowLimit defaultGeometry elemScenarioC = false := by
  refine ⟨?_, ?_, ?_⟩
  · have hlink : hasNonEmptyUrl elemScenarioA := ⟨19, rfl, by norm_num⟩
    rw [isLinkBelowLimit_of_link defaultGeometry elemScenarioA hlink]
    have hc : getYCoordinatesByAngle elemScenarioA = [650, 650, 750, 750] := by
      simp only [getYCoordinatesByAngle, radians, elemScenarioA]
      norm_num
    have hp : exceedsLimit defaultGeometry 650 = true := by
      simp only [exceedsLimit, defaultGeometry_DANGER_ZONE_HEIGHT,
        defaultGeometry_limit, decide_eq_true_eq]
      norm_num
    rw [hc, List.find?_cons_of_pos _ hp]
    simp [jsBooleanOfFind]
  · unfold isLinkBelowLimit
    rw [if_pos ((guard_eq_true_iff (linkUrlLength elemScenarioB)).mpr (Or.inl rfl))]
  · have hlink : hasNonEmptyUrl elemScenarioC := ⟨19, rfl, by norm_num⟩
    rw [isLinkBelowLimit_of_link defaultGeometry elemScenarioC hlink]
    have hc : getYCoordinatesByAngle elemScenarioC = [10, 10, 30, 30] := by
      simp only [getYCoordinatesByAngle, radians, elemScenarioC]
      norm_num
    have hp10 : exceedsLimit defaultGeometry 10 = false := by
      simp only [exceedsLimit, defaultGeometry_DANGER_ZONE_HEIGHT,
        defaultGeometry_limit, decide_eq_false_iff_not]
      norm_num
    have hp30 : exceedsLimit defaultGeometry 30 = false := by
      simp only [exceedsLimit, defaultGeometry_DANGER_ZONE_HEIGHT,
        defaultGeometry_limit, decide_eq_false_iff_not]
      norm_num
    rw [hc]
    have hfind : List.find? (exceedsLimit defaultGeometry)
        [10, 10, 30, 30] = none := by
      simp [List.find?, hp10, hp30]
    rw [hfind]
    rfl

/- ### NaN-propagation model

A JavaScript number is modelled as Option real, with none standing for
NaN.  Addition, multiplication, division, sine and cosine return NaN as
soon as an operand is NaN, and any comparison involving NaN is false,
matching IEEE 754 semantics (including 0 * NaN = NaN).  The divisors in
the source are the non-zero literals -2, 2 and 180, so division never
hits the infinity cases.  All other structure is identical to the real
model above, translated from the same source lines. -/

abbrev JSNum := Option ℝ

noncomputable def jadd (a b : JSNum) : JSNum :=
  a.bind fun x => b.map fun y => x + y

noncomputable def jmul (a b : JSNum) : JSNum :=
  a.bind fun x => b.map fun y => x * y

noncomputable def jdiv (a b : JSNum) : JSNum :=
  a.bind fun x => b.map fun y => x / y

noncomputable def jsin (a : JSNum) : JSNum :=
  a.map Real.sin

noncomputable def jcos (a : JSNum) : JSNum :=
  a.map Real.cos

/-- JavaScript strict greater-than: false whenever an operand is NaN. -/
noncomputable def jgt (a b : JSNum) : Bool :=
  match a, b with
  | some x, some y => decide (x > y)
  | _, _ => false

/-- The element record of the NaN model; each numeric field may be NaN. -/
structure PositionedElementN where
  y : JSNum
  width : JSNum
  height : JSNum
  rotationAngle : JSNum
  link : Option LinkInfo

/-- The optional chain element.link?.url?.length of line 52, NaN model. -/
def linkUrlLengthN (e : PositionedElementN) : Option Nat :=
  (e.link.bind fun l => l.url).map String.length

/-- const radians = (rotationAngle * Math.PI) / 180 (line 26), NaN model. -/
noncomputable def radiansN (e : PositionedElementN) : JSNum :=
  jdiv (jmul e.rotationAngle (some Real.pi)) (some 180)

/-- getYCoordinatesByAngle (lines 25 to 49), NaN model, in source order. -/
noncomputable def getYCoordinatesByAngleN (e : PositionedElementN) : List JSNum :=
  [ jadd (jadd (jadd e.y e.height)
        (jmul (jdiv e.width (some (-2))) (jsin (radiansN e))))
      (jmul (jdiv e.height (some (-2))) (jcos (radiansN e))),
    jadd (jadd (jadd e.y e.height)
        (jmul (jdiv e.width (some 2)) (jsin (radiansN e))))
      (jmul (jdiv e.height (some (-2))) (jcos (radiansN e))),
    jadd (jadd (jadd e.y e.height)
        (jmul (jdiv e.width (some 2)) (jsin (radiansN e))))
      (jmul (jdiv e.height (some 2)) (jcos (radiansN e))),
    jadd (jadd (jadd e.y e.height)
        (jmul (jdiv e.width (some (-2))) (jsin (radiansN e))))
      (jmul (jdiv e.height (some 2)) (jcos (radiansN e))) ]

/-- The Boolean() coercion of the find result in the NaN model: undefined,
0 and NaN all give false. -/
noncomputable def jsBooleanOfFindN (r : Option JSNum) : Bool :=
  match r with
  | none => false
  | some none => false
  | some (some v) => decide (v ≠ 0)

/-- The danger-zone predicate of line 57, NaN model. -/
noncomputable def exceedsLimitN (g : PageGeometry) (yv : JSNum) : Bool :=
  jgt (jadd yv (some (DANGER_ZONE_HEIGHT g))) (some (limit g))

/-- isLinkBelowLimit (lines 51 to 58), NaN model. -/
noncomputable def isLinkBelowLimitN (g : PageGeometry) (e : PositionedElementN) : Bool :=
  if jsBoolGtZero (jsNotLength (linkUrlLengthN e)) then false
  else
    jsBooleanOfFindN ((getYCoordinatesByAngleN e).find? (exceedsLimitN g))

/-- The element carries a link whose url is present and non-empty. -/
def hasNonEmptyUrlN (e : PositionedElementN) : Prop :=
  ∃ n, linkUrlLengthN e = some n ∧ 0 < n

theorem getYCoordinatesByAngleN_nan (e : PositionedElementN)
    (hnan : e.y = none ∨ e.width = none ∨ e.height = none ∨
            e.rotationAngle = none) :
    getYCoordinatesByAngleN e = [none, none, none, none] := by
  rcases hnan with h | h | h | h <;>
    simp [getYCoordinatesByAngleN, radiansN, jadd, jmul, jdiv, jsin, jcos, h]

/-- Claim C8: in the NaN model, an element with a present non-empty link
url but NaN in y, width, height or rotationAngle evaluates to false: NaN
propagates to every corner, each comparison against the limit is false,
find returns undefined, and Boolean() of it is false. -/
theorem isLinkBelowLimitN_nan (g : PageGeometry) (e : PositionedElementN)
    (_hlink : hasNonEmptyUrlN e)
    (hnan : e.y = none ∨ e.width = none ∨ e.height = none ∨
            e.rotationAngle = none) :
    isLinkBelowLimitN g e = false := by
  have hc := getYCoordinatesByAngleN_nan e hnan
  have hp : exceedsLimitN g none = false := by
    simp [exceedsLimitN, jadd, jgt]
  unfold isLinkBelowLimitN
  rw [hc]
  cases hguard : jsBoolGtZero (jsNotLength (linkUrlLengthN e)) with
  | true => simp
  | false =>
    simp only [Bool.false_eq_true, if_false]
    rw [show List.find? (exceedsLimitN g) [none, none, none, none] = none by
      simp [List.find?, hp]]
    rfl

/-- Witness for C8: a concrete element with NaN in y and a link. -/
theorem isLinkBelowLimitN_nan_witness :
    hasNonEmptyUrlN ⟨none, some 10, some 10, some 0, some ⟨some "a"⟩⟩ ∧
    ((⟨none, some 10, some 10, some 0, some ⟨some "a"⟩⟩ : PositionedElementN).y = none ∨
     (⟨none, some 10, some 10, some 0, some ⟨some "a"⟩⟩ : PositionedElementN).width = none ∨
     (⟨none, some 10, some 10, some 0, some ⟨some "a"⟩⟩ : PositionedElementN).height = none ∨
     (⟨none, some 10, some 10, some 0, some ⟨some "a"⟩⟩ : PositionedElementN).rotationAngle = none) ∧
    isLinkBelowLimitN defaultGeometry ⟨none, some 10, some 10, some 0, some ⟨some "a"⟩⟩ = false :=
  ⟨⟨1, rfl, by norm_num⟩, Or.inl rfl,
    isLinkBelowLimitN_nan defaultGeometry ⟨none, some 10, some 10, some 0, some ⟨some "a"⟩⟩
      ⟨1, rfl, by norm_num⟩ (Or.inl rfl)⟩

end LinkZone
